import Mathlib

/-!
Verification of the Floor-sheet scraper (files scrape_floorsheet.py,
python_scrape_floorsheet.py and the earlier revision kept as
src/unnamed/part_000) against its natural-language specification.

The repository drives a browser against a remote page; the shallow
embedding below models the pure decision logic of each function and
treats the page as an explicit environment: every value the code would
read from the DOM (a fingerprint, an input value, a visibility flag, a
grid view) is a parameter, and each bounded `WebDriverWait.until` poll
loop is modelled by `waitUntil` over a finite list of observations
(an empty remainder models the timeout expiring).

Naming: a `_v1` suffix marks the scrape_floorsheet.py version of a
function, `_v2` the python_scrape_floorsheet.py version, `_v0` the
src/unnamed/part_000 version.  Functions identical across files are
defined once.
-/

namespace Floorsheet

/-- Errors raised by the scraper: `timeout` models selenium
`TimeoutException` (a bounded `WebDriverWait` expired), `runtime` models
`RuntimeError(msg)`, `valueError` models `ValueError(msg)`. -/
inductive ScrapeErr where
  | timeout
  | runtime (msg : String)
  | valueError (msg : String)
  deriving DecidableEq, Repr

/-- `WebDriverWait(driver, t).until(pred)`: poll the page until the
predicate is truthy or the bound expires.  The list holds the successive
observations available within the bound; the result is the first
observation satisfying the predicate, `none` when the wait times out. -/
def waitUntil {α : Type} (p : α → Bool) : List α → Option α
  | [] => none
  | x :: xs => if p x then some x else waitUntil p xs

theorem waitUntil_eq_some {α : Type} {p : α → Bool} {l : List α} {x : α}
    (h : waitUntil p l = some x) : p x = true ∧ x ∈ l := by
  induction l with
  | nil => simp [waitUntil] at h
  | cons y ys ih =>
    by_cases hy : p y = true
    · simp [waitUntil, hy] at h
      subst h
      exact ⟨hy, List.mem_cons_self y ys⟩
    · simp [waitUntil, hy] at h
      rcases ih h with ⟨hp, hm⟩
      exact ⟨hp, List.mem_cons_of_mem y hm⟩

theorem waitUntil_isSome_iff {α : Type} (p : α → Bool) (l : List α) :
    (waitUntil p l).isSome = true ↔ ∃ x ∈ l, p x = true := by
  induction l with
  | nil => simp [waitUntil]
  | cons y ys ih =>
    by_cases hy : p y = true
    · constructor
      · intro _
        exact ⟨y, List.mem_cons_self y ys, hy⟩
      · intro _
        simp [waitUntil, hy]
    · rw [show waitUntil p (y :: ys) = waitUntil p ys by simp [waitUntil, hy], ih]
      constructor
      · rintro ⟨x, hx, hp⟩
        exact ⟨x, List.mem_cons_of_mem y hx, hp⟩
      · rintro ⟨x, hx, hp⟩
        rcases List.mem_cons.mp hx with hx | hx
        · subst hx; exact absurd hp hy
        · exact ⟨x, hx, hp⟩

/-! ## parse_numeric (identical in all three files) -/

/-- Python `str.strip()` on cell text (whitespace at both ends). -/
def pyStrip (s : String) : String :=
  String.mk (((s.toList.dropWhile Char.isWhitespace).reverse.dropWhile
    Char.isWhitespace).reverse)

/-- `"".join(c for c in s if c.isdigit() or c == ".")` (digits modelled
as ASCII digits, the only ones the remote table produces). -/
def cleanNumeric (s : String) : String :=
  String.mk (s.toList.filter (fun c => c.isDigit || c == '.'))

/-- A string made of digits and dots is accepted by Python `float` iff
it contains at least one digit and at most one dot (e.g. `"1.2.3"`,
`"."`, `""` raise `ValueError`). -/
def floatParsable (s : String) : Bool :=
  s.toList.any Char.isDigit && s.toList.count '.' ≤ 1

/-- Value of a digit list read in base 10. -/
def digitsVal (cs : List Char) : Nat :=
  cs.foldl (fun acc c => acc * 10 + (c.toNat - '0'.toNat)) 0

/-- Split a character list at its first dot: the part before and,
when a dot is present, the part after it. -/
def splitDot : List Char → List Char × Option (List Char)
  | [] => ([], none)
  | c :: cs =>
    if c = '.' then ([], some cs)
    else
      let p := splitDot cs
      (c :: p.1, p.2)

/-- Exact value of a digits-and-dots decimal literal with at most one
dot, as a rational (the numeric claims concern which inputs parse and
the exact decimal read, not binary rounding, so ℚ is the faithful
carrier). -/
def decimalValue (s : String) : ℚ :=
  match splitDot s.toList with
  | (w, none) => (digitsVal w : ℚ)
  | (w, some f) => (digitsVal w : ℚ) + (digitsVal f : ℚ) / ((10 : ℚ) ^ f.length)

/-- `float(clean)` on a cleaned (digits-and-dots) string: the parsed
value, or `none` for the `ValueError` branch. -/
def pyFloat? (s : String) : Option ℚ :=
  if floatParsable s then some (decimalValue s) else none

/-- `parse_numeric` (same body in scrape_floorsheet.py:40,
python_scrape_floorsheet.py:261 and part_000:230): `None` stays `None`;
the text is stripped; empty strip gives `None`; non-digit non-dot
characters are removed; empty clean gives `None`; otherwise
`float(clean)`, with `ValueError` mapped to `None`. -/
def parse_numeric (value : Option String) : Option ℚ :=
  match value with
  | none => none
  | some v =>
    let s := pyStrip v
    if s = "" then none
    else
      let clean := cleanNumeric s
      if clean = "" then none
      else pyFloat? clean

/-! ## RenderStabilizer: wait_date_applied / pick_date (v2, v0) and
set_floorsheet_date_by_calendar (v1) -/

/-- `date_ymd.replace("-", "/")`. -/
def toSlash (s : String) : String :=
  String.mk (s.toList.map (fun c => if c = '-' then '/' else c))

/-- The `_ok` predicate of `wait_date_applied`
(python_scrape_floorsheet.py:233, part_000:196): an observation is the
stripped value of the date input found by `find_date_input`, or `none`
when no date input was found; it matches when it equals the target in
slash form or in dash form. -/
def echoMatches (target : String) (v : Option String) : Bool :=
  match v with
  | none => false
  | some s => s == toSlash target || s == target

/-- `wait_date_applied(driver, target_ymd, timeout)`
(python_scrape_floorsheet.py:229, part_000:187): poll the date input
value until it equals the target date in `YYYY/MM/DD` or `YYYY-MM-DD`
form; an expired wait raises `TimeoutException`.  Returns the matching
observation. -/
def wait_date_applied (target : String) (obs : List (Option String)) :
    Except ScrapeErr (Option String) :=
  match waitUntil (echoMatches target) obs with
  | some v => .ok v
  | none => .error .timeout

/-- `pick_date(driver, date_str, timeout)`
(python_scrape_floorsheet.py:243, part_000:206): open the calendar, align
the year (skipped when the header already shows it — a skip is modelled
as `.ok ()`), pick the month, click the day, then block in
`wait_date_applied` and finally wait for the table to be present.  The
calendar phases are modelled by their outcomes; their internals are
verified separately. -/
def pick_date (openRes setYearRes setMonthRes clickDayRes : Except ScrapeErr Unit)
    (target : String) (echoObs : List (Option String)) (tableVisible : List Bool) :
    Except ScrapeErr (Option String) := do
  _ ← openRes
  _ ← setYearRes
  _ ← setMonthRes
  _ ← clickDayRes
  let v ← wait_date_applied target echoObs
  match waitUntil (fun b => b) tableVisible with
  | some _ => pure v
  | none => .error .timeout

/-- The confirmation loop at the end of `set_floorsheet_date_by_calendar`
(scrape_floorsheet.py:255): up to 20 polls of `read_asof_date`; return as
soon as the observed As-of text equals the target in slash form; raise
`RuntimeError` when all polls are exhausted.  `read i` is the As-of text
observed at poll `i` (`none` models a failed read).  Returns the index
of the matching poll. -/
def asof_confirm (targetAsof : String) (read : Nat → Option String) :
    Nat → Nat → Except ScrapeErr Nat
  | 0, _ => .error (.runtime ("Date did not apply. Expected As of " ++ targetAsof))
  | fuel + 1, i =>
    if read i = some targetAsof then .ok i
    else asof_confirm targetAsof read fuel (i + 1)

/-- `set_floorsheet_date_by_calendar(driver, wait, date_ymd)`
(scrape_floorsheet.py:227): open the calendar, navigate to the target
month and year, click the day, wait for the table, then run the 20-poll
As-of confirmation loop against `date_ymd.replace("-", "/")`.  The
navigation phases are modelled by their outcomes. -/
def set_floorsheet_date_by_calendar
    (openRes ensureMonthYearRes clickDayRes : Except ScrapeErr Unit)
    (dateYmd : String) (asofRead : Nat → Option String)
    (tableVisible : List Bool) : Except ScrapeErr Nat := do
  _ ← openRes
  _ ← ensureMonthYearRes
  _ ← clickDayRes
  match waitUntil (fun b => b) tableVisible with
  | some _ => asof_confirm (toSlash dateYmd) asofRead 20 0
  | none => .error .timeout

theorem asof_confirm_ok {t : String} {read : Nat → Option String}
    {fuel i j : Nat} (h : asof_confirm t read fuel i = .ok j) :
    read j = some t ∧ i ≤ j ∧ j < i + fuel := by
  induction fuel generalizing i with
  | zero => simp [asof_confirm] at h
  | succ n ih =>
    by_cases hr : read i = some t
    · simp [asof_confirm, hr] at h
      subst h
      exact ⟨hr, Nat.le_refl i, by omega⟩
    · simp [asof_confirm, hr] at h
      rcases ih h with ⟨h1, h2, h3⟩
      exact ⟨h1, by omega, by omega⟩

/-! ## PaginationWalker: go_to_next_page

Environment parameters: `pageLabels` are the normalized texts of the
numbered pagination buttons, `hasNextArrow` whether a chevron_right
button exists, `before` the pre-click first-row fingerprint
(`first_row_key`, `none` when unreadable), `waitObs` the fingerprints
observed by the post-click wait, `tableObs` the table-presence polls
used when `before` is `None`, `after` the fingerprint re-read after the
wait in the directional branch. -/

/-- `go_to_next_page(driver, wait, current_page)`
(python_scrape_floorsheet.py:297): wait for the table, read the
fingerprint, click the button labeled `current_page + 1` when present
(then block until the fingerprint changes, or until a table is present
when no row existed, and report `True`); otherwise click the
chevron_right button when present, block the same way, re-read the
fingerprint and report `False` when it still equals the pre-click value,
else `True`; report `False` when neither control exists. -/
def go_to_next_page_v2 (currentPage : Nat) (pageLabels : List String)
    (hasNextArrow : Bool) (before : Option String) (initTable : List Bool)
    (waitObs : List (Option String)) (tableObs : List Bool)
    (after : Option String) : Except ScrapeErr Bool :=
  match waitUntil (fun b => b) initTable with
  | none => .error .timeout
  | some _ =>
    if pageLabels.contains (toString (currentPage + 1)) then
      match before with
      | some b =>
        match waitUntil (fun k => k != some b) waitObs with
        | some _ => .ok true
        | none => .error .timeout
      | none =>
        match waitUntil (fun b => b) tableObs with
        | some _ => .ok true
        | none => .error .timeout
    else if hasNextArrow then
      match before with
      | some b =>
        match waitUntil (fun k => k != some b) waitObs with
        | some _ => if after == some b then .ok false else .ok true
        | none => .error .timeout
      | none =>
        match waitUntil (fun b => b) tableObs with
        | some _ => .ok true
        | none => .error .timeout
    else .ok false

/-- `go_to_next_page(driver, wait, current_page)` (scrape_floorsheet.py:78
and, identically, part_000:266): report `False` when no button labeled
`current_page + 1` exists; otherwise read the fingerprint, click, block
until the fingerprint changes (or until a table is present when no row
existed) and report `True`.  There is no directional fallback. -/
def go_to_next_page_v1 (currentPage : Nat) (pageLabels : List String)
    (before : Option String) (waitObs : List (Option String))
    (tableObs : List Bool) : Except ScrapeErr Bool :=
  if pageLabels.contains (toString (currentPage + 1)) then
    match before with
    | some b =>
      match waitUntil (fun k => k != some b) waitObs with
      | some _ => .ok true
      | none => .error .timeout
    | none =>
      match waitUntil (fun b => b) tableObs with
      | some _ => .ok true
      | none => .error .timeout
  else .ok false

/-- C4: `go_to_next_page` reports end-of-data (`False`) exactly as
claimed.  For the python_scrape_floorsheet.py version (first two
conjuncts, a full characterization of the returning runs): once the
initial table wait succeeds, it returns `False` iff either no button
labeled `current_page + 1` and no chevron_right button is found, or the
chevron_right button is found and clicked and the post-wait re-read of
the first-row fingerprint still equals its pre-click value; in every
other returning case it returns `True` (a wait whose observations never
satisfy it raises `TimeoutException` instead of returning).  For the
scrape_floorsheet.py / part_000 version (third conjunct), which never
looks for a directional control, `False` is returned iff the numbered
control is absent. -/
theorem go_to_next_page_end_of_data
    (currentPage : Nat) (pageLabels : List String) (hasNextArrow : Bool)
    (before after : Option String) (initTable : List Bool)
    (waitObs : List (Option String)) (tableObs : List Bool) :
    (go_to_next_page_v2 currentPage pageLabels hasNextArrow before initTable
        waitObs tableObs after = .ok false ↔
      (waitUntil (fun b => b) initTable).isSome = true ∧
      ((toString (currentPage + 1) ∉ pageLabels ∧ hasNextArrow = false) ∨
       (toString (currentPage + 1) ∉ pageLabels ∧ hasNextArrow = true ∧
          ∃ b, before = some b ∧
            (waitUntil (fun k => k != some b) waitObs).isSome = true ∧
            after = some b)))
    ∧
    (go_to_next_page_v2 currentPage pageLabels hasNextArrow before initTable
        waitObs tableObs after = .ok true ↔
      (waitUntil (fun b => b) initTable).isSome = true ∧
      ((toString (currentPage + 1) ∈ pageLabels ∧
          ((∃ b, before = some b ∧
              (waitUntil (fun k => k != some b) waitObs).isSome = true) ∨
           (before = none ∧ (waitUntil (fun b => b) tableObs).isSome = true))) ∨
       (toString (currentPage + 1) ∉ pageLabels ∧ hasNextArrow = true ∧
          ((∃ b, before = some b ∧
              (waitUntil (fun k => k != some b) waitObs).isSome = true ∧
              after ≠ some b) ∨
           (before = none ∧ (waitUntil (fun b => b) tableObs).isSome = true)))))
    ∧
    (go_to_next_page_v1 currentPage pageLabels before waitObs tableObs
        = .ok false ↔ toString (currentPage + 1) ∉ pageLabels) := by
  refine ⟨?_, ?_, ?_⟩
  · cases hInit : waitUntil (fun b => b) initTable with
    | none => simp [go_to_next_page_v2, hInit]
    | some x =>
      by_cases hn : toString (currentPage + 1) ∈ pageLabels
      · cases before with
        | some b =>
          cases hw : waitUntil (fun k => k != some b) waitObs with
          | none => simp [go_to_next_page_v2, hInit, hn, hw]
          | some w => simp [go_to_next_page_v2, hInit, hn, hw]
        | none =>
          cases ht : waitUntil (fun b => b) tableObs with
          | none => simp [go_to_next_page_v2, hInit, hn, ht]
          | some w => simp [go_to_next_page_v2, hInit, hn, ht]
      · cases hna : hasNextArrow with
        | false => simp [go_to_next_page_v2, hInit, hn, hna]
        | true =>
          cases before with
          | some b =>
            cases hw : waitUntil (fun k => k != some b) waitObs with
            | none => simp [go_to_next_page_v2, hInit, hn, hna, hw]
            | some w =>
              by_cases haf : after = some b
              · simp [go_to_next_page_v2, hInit, hn, hna, hw, haf]
              · simp [go_to_next_page_v2, hInit, hn, hna, hw, haf]
          | none =>
            cases ht : waitUntil (fun b => b) tableObs with
            | none => simp [go_to_next_page_v2, hInit, hn, hna, ht]
            | some w => simp [go_to_next_page_v2, hInit, hn, hna, ht]
  · cases hInit : waitUntil (fun b => b) initTable with
    | none => simp [go_to_next_page_v2, hInit]
    | some x =>
      by_cases hn : toString (currentPage + 1) ∈ pageLabels
      · cases before with
        | some b =>
          cases hw : waitUntil (fun k => k != some b) waitObs with
          | none => simp [go_to_next_page_v2, hInit, hn, hw]
          | some w => simp [go_to_next_page_v2, hInit, hn, hw]
        | none =>
          cases ht : waitUntil (fun b => b) tableObs with
          | none => simp [go_to_next_page_v2, hInit, hn, ht]
          | some w => simp [go_to_next_page_v2, hInit, hn, ht]
      · cases hna : hasNextArrow with
        | false => simp [go_to_next_page_v2, hInit, hn, hna]
        | true =>
          cases before with
          | some b =>
            cases hw : waitUntil (fun k => k != some b) waitObs with
            | none => simp [go_to_next_page_v2, hInit, hn, hna, hw]
            | some w =>
              by_cases haf : after = some b
              · simp [go_to_next_page_v2, hInit, hn, hna, hw, haf]
              · simp [go_to_next_page_v2, hInit, hn, hna, hw, haf]
          | none =>
            cases ht : waitUntil (fun b => b) tableObs with
            | none => simp [go_to_next_page_v2, hInit, hn, hna, ht]
            | some w => simp [go_to_next_page_v2, hInit, hn, hna, ht]
  · by_cases hn : toString (currentPage + 1) ∈ pageLabels
    · cases before with
      | some b =>
        cases hw : waitUntil (fun k => k != some b) waitObs with
        | none => simp [go_to_next_page_v1, hn, hw]
        | some w => simp [go_to_next_page_v1, hn, hw]
      | none =>
        cases ht : waitUntil (fun b => b) tableObs with
        | none => simp [go_to_next_page_v1, hn, ht]
        | some w => simp [go_to_next_page_v1, hn, ht]
    · simp [go_to_next_page_v1, hn]

/-- C5: within one date cycle, when the pre-click table is non-empty
(the first-row fingerprint `before` exists), `go_to_next_page` returns
`True` only after some fingerprint observed by the post-click wait
differs from the pre-click value — in both the python_scrape version
(first conjunct) and the scrape_floorsheet / part_000 version (second
conjunct) — so the walker never accepts an advance, and hence never
scrapes a further page, without having seen the first row change. -/
theorem go_to_next_page_advances_only_on_change
    (currentPage : Nat) (pageLabels : List String) (hasNextArrow : Bool)
    (after : Option String) (initTable : List Bool)
    (waitObs : List (Option String)) (tableObs : List Bool)
    (before : Option String) (b : String) (hb : before = some b) :
    (go_to_next_page_v2 currentPage pageLabels hasNextArrow before initTable
        waitObs tableObs after = .ok true →
      ∃ k ∈ waitObs, k ≠ some b)
    ∧ (go_to_next_page_v1 currentPage pageLabels before waitObs tableObs
        = .ok true →
      ∃ k ∈ waitObs, k ≠ some b) := by
  subst hb
  constructor
  · intro h
    cases hInit : waitUntil (fun x => x) initTable with
    | none => simp [go_to_next_page_v2, hInit] at h
    | some x =>
      cases hw : waitUntil (fun k => k != some b) waitObs with
      | some k =>
        rcases waitUntil_eq_some hw with ⟨hpk, hk⟩
        exact ⟨k, hk, by simpa using hpk⟩
      | none =>
        by_cases hn : toString (currentPage + 1) ∈ pageLabels
        · simp [go_to_next_page_v2, hInit, hn, hw] at h
        · cases hna : hasNextArrow with
          | false => simp [go_to_next_page_v2, hInit, hn, hna] at h
          | true => simp [go_to_next_page_v2, hInit, hn, hna, hw] at h
  · intro h
    by_cases hn : toString (currentPage + 1) ∈ pageLabels
    · cases hw : waitUntil (fun k => k != some b) waitObs with
      | none => simp [go_to_next_page_v1, hn, hw] at h
      | some k =>
        rcases waitUntil_eq_some hw with ⟨hpk, hk⟩
        exact ⟨k, hk, by simpa using hpk⟩
    · simp [go_to_next_page_v1, hn] at h

/-- Witness for C5 at concrete runs: page 1 with a numbered button
labeled 2, pre-click fingerprint `"A"`, and a wait that observes a
changed fingerprint. -/
theorem go_to_next_page_advances_only_on_change_witness :
    (∃ k ∈ [some "B"], k ≠ some "A") ∧ (∃ k ∈ [some "C"], k ≠ some "A") :=
  ⟨(go_to_next_page_advances_only_on_change 1 ["2"] false none [true]
      [some "B"] [] (some "A") "A" rfl).1 rfl,
   (go_to_next_page_advances_only_on_change 1 ["2"] false none [true]
      [some "C"] [] (some "A") "A" rfl).2 rfl⟩

/-! ## CalendarNavigator: set_year (python_scrape_floorsheet.py:135 and
part_000:87, identical stepping loop) -/

/-- Direction of the year-grid scroll arrow clicked on one iteration. -/
inductive ArrowDir where
  | prev
  | next
  deriving DecidableEq, Repr

/-- What one iteration of the `set_year` loop observes in the year grid:
whether a button labeled with the target year is present (the
`year_xpath` query), and the 4-digit years currently visible in the
grid (the span scan). -/
structure YearGridView where
  hasTarget : Bool
  years : List Nat
  deriving Repr

/-- `if years and year < min(years): click prev_arrow else: click
next_arrow` (python_scrape_floorsheet.py:166, part_000:119). -/
def chooseArrow (target : Nat) (years : List Nat) : ArrowDir :=
  match years.min? with
  | some m => if target < m then .prev else .next
  | none => .next

/-- The `for _ in range(35)` stepping loop of `set_year`: on iteration
`i` the grid shows `view i`; if the target year button is present it is
clicked and the function returns (the iteration index is returned,
together with the log of arrow clicks so far); otherwise one scroll
arrow is clicked and the loop continues; when the 35 iterations are
exhausted `RuntimeError("Year {year} not found in grid.")` is raised. -/
def set_year_loop (target : Nat) (view : Nat → YearGridView) :
    Nat → Nat → Except ScrapeErr Nat × List ArrowDir
  | 0, _ =>
    (.error (.runtime ("Year " ++ toString target ++ " not found in grid.")), [])
  | fuel + 1, i =>
    if (view i).hasTarget then (.ok i, [])
    else
      let rest := set_year_loop target view fuel (i + 1)
      (rest.1, chooseArrow target (view i).years :: rest.2)

/-- `set_year(driver, year, timeout)` stepping phase, entered after the
year grid is opened: 35 bounded iterations starting at index 0. -/
def set_year (target : Nat) (view : Nat → YearGridView) :
    Except ScrapeErr Nat × List ArrowDir :=
  set_year_loop target view 35 0

theorem set_year_loop_err {target : Nat} {view : Nat → YearGridView}
    {fuel i : Nat} (h : ∀ j, i ≤ j → j < i + fuel → (view j).hasTarget = false) :
    (set_year_loop target view fuel i).1 =
      .error (.runtime ("Year " ++ toString target ++ " not found in grid.")) := by
  induction fuel generalizing i with
  | zero => simp [set_year_loop]
  | succ n ih =>
    have hi : (view i).hasTarget = false := h i (Nat.le_refl i) (by omega)
    simp [set_year_loop, hi]
    exact ih (fun j hj1 hj2 => h j (by omega) (by omega))

theorem set_year_loop_ok {target : Nat} {view : Nat → YearGridView}
    {fuel i j : Nat} (hj : i ≤ j) (hjf : j < i + fuel)
    (hfound : (view j).hasTarget = true)
    (hmin : ∀ k, i ≤ k → k < j → (view k).hasTarget = false) :
    (set_year_loop target view fuel i).1 = .ok j := by
  induction fuel generalizing i with
  | zero => omega
  | succ n ih =>
    by_cases hi : (view i).hasTarget = true
    · have : i = j := by
        by_contra hne
        have : i < j := by omega
        exact absurd hi (by simp [hmin i (Nat.le_refl i) this])
      subst this
      simp [set_year_loop, hi]
    · have hij : i < j := by
        rcases Nat.lt_or_ge i j with h1 | h1
        · exact h1
        · have : i = j := by omega
          subst this
          exact absurd hfound hi
      simp [set_year_loop, hi]
      exact ih (by omega) (by omega) (fun k hk1 hk2 => hmin k (by omega) hk2)

/-- C6: for every target year and every behaviour of the year grid,
the `set_year` stepping loop performs at most 35 iterations: when the
target year button becomes visible at some iteration below 35 it is
clicked and the call returns at the first such iteration, and when it
never does, the call raises the deterministic
`RuntimeError("Year {year} not found in grid.")` after the bound is
exhausted; the loop is structurally bounded, so it can never loop
forever. -/
theorem set_year_bounded (target : Nat) (view : Nat → YearGridView) :
    ((∃ i, i < 35 ∧ (view i).hasTarget = true) →
      ∃ i, i < 35 ∧ (view i).hasTarget = true ∧
        (set_year target view).1 = .ok i)
    ∧ ((∀ i, i < 35 → (view i).hasTarget = false) →
      (set_year target view).1 =
        .error (.runtime ("Year " ++ toString target ++ " not found in grid."))) := by
  constructor
  · intro hex
    have hj := Nat.find_spec (p := fun i => i < 35 ∧ (view i).hasTarget = true) hex
    set j := Nat.find (p := fun i => i < 35 ∧ (view i).hasTarget = true) hex with hjdef
    refine ⟨j, hj.1, hj.2, ?_⟩
    apply set_year_loop_ok (Nat.zero_le j) (by omega) hj.2
    intro k _ hk
    have := Nat.find_min (p := fun i => i < 35 ∧ (view i).hasTarget = true) hex
      (m := k) (by omega)
    by_contra hc
    exact this ⟨by omega, by simpa using hc⟩
  · intro hall
    exact set_year_loop_err (fun j hj1 hj2 => hall j (by omega))

/-- Witness for C6: a grid where the target appears at iteration 3, and
a grid where it never appears. -/
theorem set_year_bounded_witness :
    (∃ i, i < 35 ∧
      ((fun i : Nat => YearGridView.mk (decide (i = 3)) [2020]) i).hasTarget
        = true ∧
      (set_year 2024 (fun i : Nat =>
        YearGridView.mk (decide (i = 3)) [2020])).1 = .ok i)
    ∧ (set_year 2024 (fun _ : Nat => YearGridView.mk false [])).1 =
        .error (.runtime ("Year " ++ toString 2024 ++ " not found in grid.")) :=
  ⟨(set_year_bounded 2024 _).1 ⟨3, by omega, by decide⟩,
   (set_year_bounded 2024 _).2 (fun _ _ => rfl)⟩

/-! ## CalendarNavigator: open_calendar / close_calendar -/

/-- Browser-visible actions performed while opening the calendar. -/
inductive CalAction where
  | closeEscape
  | scrollToInput
  | clickInput
  | waitPopup
  deriving DecidableEq, Repr

/-- `close_calendar(driver)` (python_scrape_floorsheet.py:66): when the
popup is open, send ESCAPE to the body to dismiss it and poll up to 20
times for it to disappear; no action when it is already closed; never
raises.  Modelled as the list of actions performed. -/
def close_calendar (isOpen : Bool) : List CalAction :=
  if isOpen then [.closeEscape] else []

/-- `open_calendar(driver, timeout)` (python_scrape_floorsheet.py:92):
first `close_calendar(driver)`, then locate the date input
(`RuntimeError("Date input not found")` when absent), scroll it into
view, click it, and wait for the q-date popup root
(`TimeoutException` when it never appears within the bound). -/
def open_calendar_v2 (isOpen inputFound popupAppears : Bool) :
    Except ScrapeErr Unit × List CalAction :=
  let closeActs := close_calendar isOpen
  if inputFound then
    if popupAppears then
      (.ok (), closeActs ++ [.scrollToInput, .clickInput, .waitPopup])
    else
      (.error .timeout, closeActs ++ [.scrollToInput, .clickInput, .waitPopup])
  else (.error (.runtime "Date input not found"), closeActs)

/-- `open_calendar(driver, timeout)` (part_000:69): locate the date
input, scroll, click, wait for the popup.  The popup state at entry
(`_isOpen`) is never consulted and no close is performed. -/
def open_calendar_v0 (_isOpen inputFound popupAppears : Bool) :
    Except ScrapeErr Unit × List CalAction :=
  if inputFound then
    if popupAppears then (.ok (), [.scrollToInput, .clickInput, .waitPopup])
    else (.error .timeout, [.scrollToInput, .clickInput, .waitPopup])
  else (.error (.runtime "Date input not found"), [])

/-- C8 counterexample: the part_000 version of `open_calendar`, invoked
while the calendar popup is open, performs no closing action at all —
it clicks the input and succeeds with the popup left unreset — refuting
the claim that every invocation of `open_calendar` first closes an
already-open popup. -/
theorem open_calendar_v0_never_closes :
    CalAction.closeEscape ∉ (open_calendar_v0 true true true).2 ∧
    (open_calendar_v0 true true true).1 = .ok () := ⟨by decide, rfl⟩

/-- C8 (amended): in python_scrape_floorsheet.py every invocation of
`open_calendar` runs `close_calendar` first — whenever the popup is open
at entry, the very first performed action is the dismissing ESCAPE,
before the date input is clicked — and when the date input is found but
the popup never appears the call fails with the timeout error.  The
part_000 version omits the closing step (see the counterexample). -/
theorem open_calendar_v2_closes_first (isOpen inputFound popupAppears : Bool) :
    (isOpen = true →
      (open_calendar_v2 isOpen inputFound popupAppears).2.head? =
        some CalAction.closeEscape)
    ∧ (inputFound = true → popupAppears = false →
      (open_calendar_v2 isOpen inputFound popupAppears).1 =
        .error .timeout) := by
  constructor
  · intro h
    subst h
    cases inputFound <;> cases popupAppears <;> rfl
  · intro h1 h2
    subst h1
    subst h2
    cases isOpen <;> rfl

/-- Witness for C8 (amended): popup open at entry, input found, popup
never reappears. -/
theorem open_calendar_v2_closes_first_witness :
    (open_calendar_v2 true true false).2.head? = some CalAction.closeEscape ∧
    (open_calendar_v2 true true false).1 = .error .timeout :=
  ⟨(open_calendar_v2_closes_first true true false).1 rfl,
   (open_calendar_v2_closes_first true true false).2 rfl rfl⟩

/-! ## CalendarNavigator: click_day -/

/-- Whether the pattern is a prefix of the haystack (character lists). -/
def startsWithChars : List Char → List Char → Bool
  | [], _ => true
  | _ :: _, [] => false
  | p :: ps, c :: cs => p == c && startsWithChars ps cs

/-- Whether the pattern occurs inside the haystack (character lists). -/
def hasSubChars (pat : List Char) : List Char → Bool
  | [] => startsWithChars pat []
  | c :: cs => startsWithChars pat (c :: cs) || hasSubChars pat cs

/-- XPath `contains(@class, pat)`: substring test on the class
attribute string. -/
def strContains (hay pat : String) : Bool := hasSubChars pat.toList hay.toList

/-- Class attribute of a day cell in the Quasar day grid: cells of the
displayed month carry `q-date__calendar-item--in`, adjacent-month
filler cells carry `q-date__calendar-item--out` (the markup the two
click_day selectors are written against). -/
def cellClass (inMonth : Bool) : String :=
  if inMonth then "q-date__calendar-item q-date__calendar-item--in"
  else "q-date__calendar-item q-date__calendar-item--out"

/-- One day cell of the rendered grid, in document order: whether it
belongs to the displayed month, its visible day-number text, and the
selenium `is_displayed` / `is_enabled` flags. -/
structure DayCell where
  inMonth : Bool
  label : String
  visible : Bool
  enabled : Bool
  deriving DecidableEq, Repr

/-- `click_day(driver, wait, day_int)` (scrape_floorsheet.py:199): the
candidate XPaths select descendants of any div whose class contains the
substring `q-date__calendar-item` with text equal to the day number;
the loop clicks the first located element that is displayed and
enabled, raising `RuntimeError` when none is.  (The second candidate
XPath matches the same cells as the first in this cell-level model.) -/
def click_day_v1 (day : Nat) (cells : List DayCell) :
    Except ScrapeErr DayCell :=
  match cells.find? (fun c =>
      strContains (cellClass c.inMonth) "q-date__calendar-item"
        && c.label == toString day && c.visible && c.enabled) with
  | some c => .ok c
  | none =>
    .error (.runtime ("Day " ++ toString day ++ " not clickable in calendar."))

/-- `click_day(driver, day, timeout)` (python_scrape_floorsheet.py:202
and part_000:163): the XPath requires an ancestor div whose class
contains `q-date__calendar-item--in`; the first clickable (displayed
and enabled) match is clicked, and an expired wait raises
`TimeoutException`. -/
def click_day_v2 (day : Nat) (cells : List DayCell) :
    Except ScrapeErr DayCell :=
  match cells.find? (fun c =>
      strContains (cellClass c.inMonth) "q-date__calendar-item--in"
        && c.label == toString day && c.visible && c.enabled) with
  | some c => .ok c
  | none => .error .timeout

/-- C9: refuted on scrape_floorsheet.py.  Its `click_day` filters on the
substring `q-date__calendar-item`, which the class of an adjacent-month
filler cell (`... q-date__calendar-item--out`) also contains, so on a
grid where a visible, enabled filler cell labeled 30 precedes the
in-month cell labeled 30 in document order it clicks the filler cell —
despite its own docstring saying days from other months are avoided.
The python_scrape_floorsheet.py / part_000 version filters on
`q-date__calendar-item--in` and clicks the in-month cell on the same
grid. -/
theorem click_day_v1_clicks_adjacent_month_filler :
    click_day_v1 30
        [⟨false, "30", true, true⟩, ⟨true, "30", true, true⟩]
      = .ok ⟨false, "30", true, true⟩ ∧
    (⟨false, "30", true, true⟩ : DayCell).inMonth = false ∧
    click_day_v2 30
        [⟨false, "30", true, true⟩, ⟨true, "30", true, true⟩]
      = .ok ⟨true, "30", true, true⟩ := ⟨rfl, rfl, rfl⟩

/-! ## wait_table_ready (python_scrape_floorsheet.py:347) -/

/-- Python truthiness of a string-or-None value: `None` and the empty
string are falsy. -/
def pyTruthy : Option String → Bool
  | none => false
  | some s => s != ""

/-- The stabilization loop of `wait_table_ready`: after the table and a
first row are present, `first_row_key` is read once (`k0`), then up to
25 times the loop sleeps, re-reads (`read i` is the i-th re-read,
`none` when the read fails), and returns as soon as the re-read is
truthy and equal to the previous read; when the 25 polls are exhausted
the loop falls through and the function returns normally — no branch
raises.  The model returns the number of polls performed. -/
def wait_table_loop (read : Nat → Option String) :
    Nat → Nat → Option String → Nat
  | 0, i, _ => i
  | fuel + 1, i, k1 =>
    let k2 := read i
    if pyTruthy k2 && k2 == k1 then i + 1
    else wait_table_loop read fuel (i + 1) k2

/-- `wait_table_ready(driver, timeout)` after the two presence waits
succeed: the 25-poll stabilization loop started from the initial
`first_row_key` read. -/
def wait_table_ready (k0 : Option String) (read : Nat → Option String) : Nat :=
  wait_table_loop read 25 0 k0

theorem wait_table_loop_le (read : Nat → Option String) :
    ∀ fuel i k1, wait_table_loop read fuel i k1 ≤ i + fuel := by
  intro fuel
  induction fuel with
  | zero => intro i k1; simp [wait_table_loop]
  | succ n ih =>
    intro i k1
    by_cases h : (pyTruthy (read i) && (read i == k1)) = true
    · simp [wait_table_loop, h]
    · simp only [wait_table_loop, h, if_neg]
      have := ih (i + 1) (read i)
      simp [h]
      omega

/-- C10: once the table and at least one row are present, the
`wait_table_ready` stabilization loop returns normally after at most 25
fingerprint re-reads, for every initial read and every behaviour of the
subsequent reads — including a fingerprint that keeps changing or
becomes unreadable — and no branch of the loop raises (its codomain is
the plain poll count): post-selection stabilization is best-effort, not
guaranteed. -/
theorem wait_table_ready_bounded (k0 : Option String)
    (read : Nat → Option String) : wait_table_ready k0 read ≤ 25 :=
  wait_table_loop_le read 25 0 k0

/-! ## ExtractionPipeline: the per-date main loops -/

/-- The date loop of `main` in scrape_floorsheet.py:322: every date of
the range runs `scrape_one_date` inside try/except — a failure is
reported for that date and the loop continues with the next date.
`scrape d` is the outcome of the whole date cycle for `d`.  The model
returns one (date, outcome) record per date. -/
def main_v1_loop (scrape : String → Except ScrapeErr (List (List String))) :
    List String → List (String × Except ScrapeErr (List (List String)))
  | [] => []
  | d :: ds => (d, scrape d) :: main_v1_loop scrape ds

/-- The date loop of `main` in python_scrape_floorsheet.py:407 (and
part_000:347): the per-date body runs with no try/except, so the first
failing date raises out of the for loop, the driver is quit in the
`finally` block and the run ends.  The model returns the datasets of
the dates completed before the failure and, when one occurred, the
failing date with its error. -/
def main_v2_loop (scrape : String → Except ScrapeErr (List (List String))) :
    List String →
      List (String × List (List String)) × Option (String × ScrapeErr)
  | [] => ([], none)
  | d :: ds =>
    match scrape d with
    | .ok rows =>
      let rest := main_v2_loop scrape ds
      ((d, rows) :: rest.1, rest.2)
    | .error e => ([], some (d, e))

/-- A concrete date-cycle outcome map: the first date of the
counterexample range fails (with a timeout), every other date succeeds
with an empty dataset. -/
def cexScrape : String → Except ScrapeErr (List (List String)) :=
  fun d => if d = "2024-01-15" then .error .timeout else .ok []

/-- C1 counterexample: in python_scrape_floorsheet.py / part_000, when
the first date of the inclusive range 2024-01-15..2024-01-16 fails, the
run terminates with that error and the second date is never processed —
refuting "the pipeline ... continues processing every subsequent date
of the range; no single date's failure terminates the whole run" for
those entry points. -/
theorem main_v2_aborts_on_first_failure :
    main_v2_loop cexScrape ["2024-01-15", "2024-01-16"] =
      ([], some ("2024-01-15", ScrapeErr.timeout)) ∧
    ¬ ("2024-01-16" ∈
        (main_v2_loop cexScrape ["2024-01-15", "2024-01-16"]).1.map
          Prod.fst) := ⟨rfl, by decide⟩

/-- C1 (amended): in scrape_floorsheet.py the date loop yields exactly
one outcome per date of the range — a failing date is recorded as
failed with its error and every subsequent date is still processed
(the loop result is pointwise the per-date outcome, for every
behaviour of the date cycles); in python_scrape_floorsheet.py and
part_000 a failing date instead terminates the run, recording nothing
beyond the failure. -/
theorem main_per_date_isolation
    (scrape : String → Except ScrapeErr (List (List String)))
    (dates : List String) (d : String) (ds : List String) (e : ScrapeErr)
    (hfail : scrape d = .error e) :
    main_v1_loop scrape dates = dates.map (fun x => (x, scrape x))
    ∧ main_v2_loop scrape (d :: ds) = ([], some (d, e)) := by
  constructor
  · induction dates with
    | nil => rfl
    | cons x xs ih => simp [main_v1_loop, ih]
  · simp [main_v2_loop, hfail]

/-- Witness for C1 (amended) on the concrete failing range. -/
theorem main_per_date_isolation_witness :
    main_v1_loop cexScrape ["2024-01-15", "2024-01-16"] =
      (["2024-01-15", "2024-01-16"]).map (fun x => (x, cexScrape x)) ∧
    main_v2_loop cexScrape ("2024-01-15" :: ["2024-01-16"]) =
      ([], some ("2024-01-15", ScrapeErr.timeout)) :=
  main_per_date_isolation cexScrape ["2024-01-15", "2024-01-16"]
    "2024-01-15" ["2024-01-16"] ScrapeErr.timeout rfl

/-! ## Dataset validation -/

/-- `pd.DataFrame(rows).shape[1]` for a list of (possibly ragged) rows:
pandas pads shorter rows with NaN, so the column count is the maximum
row length. -/
def dfNumCols (rows : List (List String)) : Nat :=
  (rows.map List.length).foldr Nat.max 0

/-- The validation tail of `scrape_one_date` (scrape_floorsheet.py:291)
and of the per-date body of `main` (python_scrape_floorsheet.py:434,
part_000:367): an empty accumulation yields the empty dataset under the
7-column header; a non-empty one is accepted iff the implied DataFrame
has exactly `len(HEADER) = 7` columns, and otherwise the per-date
`ValueError("Column mismatch ...")` is raised.  (Numeric coercion of an
accepted dataset is `parse_numeric`, verified separately.) -/
def validate_dataset (rows : List (List String)) :
    Except ScrapeErr (List (List String)) :=
  if rows = [] then .ok []
  else if dfNumCols rows = 7 then .ok rows
  else .error (.valueError "Column mismatch")

theorem dfNumCols_of_all7 :
    ∀ rows : List (List String), rows ≠ [] →
      rows.all (fun r => r.length == 7) = true → dfNumCols rows = 7 := by
  intro rows
  induction rows with
  | nil => intro h; exact absurd rfl h
  | cons r rs ih =>
    intro _ hall
    simp only [List.all_cons, Bool.and_eq_true, beq_iff_eq] at hall
    cases rs with
    | nil => simp [dfNumCols, hall.1]
    | cons r2 rs2 =>
      have h2 := ih (by simp) (by simpa using hall.2)
      simp only [dfNumCols, List.map_cons, List.foldr_cons] at h2 ⊢
      rw [h2, hall.1]
      exact Nat.max_self 7

/-- C3 counterexample: a non-empty accumulation with a 7-field row and
a 1-field row is accepted (pandas pads the short row; the column count
is 7) and no schema error is raised, refuting "accepted ... if and only
if every accumulated row has exactly 7 fields". -/
theorem validate_dataset_accepts_short_row :
    validate_dataset [["a", "b", "c", "d", "e", "f", "g"], ["x"]] =
      .ok [["a", "b", "c", "d", "e", "f", "g"], ["x"]] ∧
    (([["a", "b", "c", "d", "e", "f", "g"], ["x"]] :
        List (List String)).all (fun r => r.length == 7)) = false :=
  ⟨rfl, rfl⟩

/-- C3 (amended): for every non-empty accumulated row list, the dataset
is accepted iff the maximum row arity — the implied DataFrame's column
count, shorter rows being padded with absent values — equals 7; when it
differs from 7 the per-date schema-mismatch error is raised; and a row
list all of whose rows have exactly 7 fields is always accepted. -/
theorem validate_dataset_iff (rows : List (List String)) (hne : rows ≠ []) :
    (validate_dataset rows = .ok rows ↔ dfNumCols rows = 7)
    ∧ (dfNumCols rows ≠ 7 →
        validate_dataset rows = .error (.valueError "Column mismatch"))
    ∧ (rows.all (fun r => r.length == 7) = true →
        validate_dataset rows = .ok rows) := by
  refine ⟨?_, ?_, ?_⟩
  · constructor
    · intro h
      by_contra hc
      simp [validate_dataset, hne, hc] at h
    · intro h
      simp [validate_dataset, hne, h]
  · intro h
    simp [validate_dataset, hne, h]
  · intro h
    simp [validate_dataset, hne, dfNumCols_of_all7 rows hne h]

/-- Witness for C3 (amended): an all-7-field dataset is accepted; a
1-field dataset raises the schema error. -/
theorem validate_dataset_iff_witness :
    validate_dataset [["a", "b", "c", "d", "e", "f", "g"]] =
      .ok [["a", "b", "c", "d", "e", "f", "g"]] ∧
    validate_dataset [["a"]] = .error (.valueError "Column mismatch") :=
  ⟨(validate_dataset_iff [["a", "b", "c", "d", "e", "f", "g"]]
      (by decide)).2.2 (by decide),
   (validate_dataset_iff [["a"]] (by decide)).2.1 (by decide)⟩

/-- C2: for every target date, the combined navigation-and-stabilization
step returns successfully only when the page date echo equals the target
in its canonical `YYYY/MM/DD` or `YYYY-MM-DD` form: `pick_date` (v2, v0)
succeeds only with a matching date-input echo, and
`set_floorsheet_date_by_calendar` (v1) succeeds only when some poll of
the As-of text read the slash form of the target within the 20-poll
bound; every unsuccessful run raises an error (the codomain is `Except`,
so no wrong-date value can be returned silently). -/
theorem date_application_confirmed
    (openRes setYearRes setMonthRes clickDayRes ensureRes clickRes :
      Except ScrapeErr Unit)
    (target dateYmd : String) (echoObs : List (Option String))
    (asofRead : Nat → Option String) (tableVis tableVis1 : List Bool) :
    (∀ v, pick_date openRes setYearRes setMonthRes clickDayRes target
        echoObs tableVis = .ok v → echoMatches target v = true)
    ∧ (∀ i, set_floorsheet_date_by_calendar openRes ensureRes clickRes
        dateYmd asofRead tableVis1 = .ok i →
        asofRead i = some (toSlash dateYmd) ∧ i < 20) := by
  constructor
  · intro v hv
    cases openRes with
    | error e => simp [pick_date, bind, Except.bind] at hv
    | ok u =>
      cases setYearRes with
      | error e => simp [pick_date, bind, Except.bind] at hv
      | ok u2 =>
        cases setMonthRes with
        | error e => simp [pick_date, bind, Except.bind] at hv
        | ok u3 =>
          cases clickDayRes with
          | error e => simp [pick_date, bind, Except.bind] at hv
          | ok u4 =>
            cases hwu : waitUntil (echoMatches target) echoObs with
            | none => simp [pick_date, bind, Except.bind, wait_date_applied, hwu] at hv
            | some w =>
              cases ht : waitUntil (fun b => b) tableVis with
              | none =>
                simp [pick_date, bind, Except.bind, wait_date_applied, hwu, ht] at hv
              | some b =>
                simp [pick_date, bind, Except.bind, wait_date_applied, hwu, ht,
                  pure, Except.pure] at hv
                subst hv
                exact (waitUntil_eq_some hwu).1
  · intro i hi
    cases openRes with
    | error e => simp [set_floorsheet_date_by_calendar, bind, Except.bind] at hi
    | ok u =>
      cases ensureRes with
      | error e => simp [set_floorsheet_date_by_calendar, bind, Except.bind] at hi
      | ok u2 =>
        cases clickRes with
        | error e => simp [set_floorsheet_date_by_calendar, bind, Except.bind] at hi
        | ok u3 =>
          cases ht : waitUntil (fun b => b) tableVis1 with
          | none => simp [set_floorsheet_date_by_calendar, bind, Except.bind, ht] at hi
          | some b =>
            simp [set_floorsheet_date_by_calendar, bind, Except.bind, ht] at hi
            rcases asof_confirm_ok hi with ⟨h1, _, h3⟩
            exact ⟨h1, by omega⟩

/-- Witness for C2 at a concrete run: all calendar phases succeed, the
echo list already shows `2024/01/15`, the As-of read always shows
`2024/01/15`. -/
theorem date_application_confirmed_witness :
    echoMatches "2024-01-15" (some "2024/01/15") = true ∧
    ((fun _ : Nat => some "2024/01/15") 0 = some (toSlash "2024-01-15") ∧
      0 < 20) :=
  ⟨(date_application_confirmed (.ok ()) (.ok ()) (.ok ()) (.ok ()) (.ok ())
      (.ok ()) "2024-01-15" "2024-01-15" [some "2024/01/15"]
      (fun _ => some "2024/01/15") [true] [true]).1 (some "2024/01/15")
      rfl,
   (date_application_confirmed (.ok ()) (.ok ()) (.ok ()) (.ok ()) (.ok ())
      (.ok ()) "2024-01-15" "2024-01-15" [some "2024/01/15"]
      (fun _ => some "2024/01/15") [true] [true]).2 0 rfl⟩

/-- C7: for every input, `parse_numeric` strips all characters that are
not a digit or a dot from the stripped text and parses the remainder as
a (decimal) floating-point number; it returns an absent value exactly
when the input is `None`, the stripped text is empty, or the cleaned
text is unparsable as a float (which includes the empty clean); and the
text `"1,234.50"` yields `1234.50 = 2469/2`. -/
theorem parse_numeric_spec :
    parse_numeric none = none ∧
    (∀ s : String,
      parse_numeric (some s) = none ↔
        pyStrip s = "" ∨ floatParsable (cleanNumeric (pyStrip s)) = false) ∧
    parse_numeric (some "1,234.50") = some ((2469 : ℚ) / 2) := by
  refine ⟨rfl, ?_, ?_⟩
  · intro s
    by_cases h1 : pyStrip s = ""
    · simp [parse_numeric, h1]
    · by_cases h2 : cleanNumeric (pyStrip s) = ""
      · have hf : floatParsable (cleanNumeric (pyStrip s)) = false := by
          rw [h2]; decide
        simp [parse_numeric, h1, h2, hf]
        decide
      · cases hfp : floatParsable (cleanNumeric (pyStrip s)) with
        | true => simp [parse_numeric, h1, h2, pyFloat?, hfp]
        | false => simp [parse_numeric, h1, h2, pyFloat?, hfp]
  · have hstrip : pyStrip "1,234.50" = "1,234.50" := by decide
    have hclean : cleanNumeric "1,234.50" = "1234.50" := by decide
    have hfp : floatParsable "1234.50" = true := by decide
    have hs : splitDot "1234.50".toList = (['1','2','3','4'], some ['5','0']) := by
      decide
    have h2 : digitsVal ['1','2','3','4'] = 1234 := by decide
    have h3 : digitsVal ['5','0'] = 50 := by decide
    have hdv : decimalValue "1234.50" = (2469 : ℚ) / 2 := by
      unfold decimalValue
      rw [hs]
      simp only [h2, h3, List.length_cons, List.length_nil]
      norm_num
    simp [parse_numeric, hstrip, hclean, pyFloat?, hfp, hdv]

end Floorsheet
